import Mathlib

/-!
Fitness tracker (`ftracker.go`): embedding and verified properties.

The Go package `ftracker` is a set of pure functions over `int` and `float64`.
The file holds two embeddings of the same source.

The exact embedding (namespace `Ftracker`):

* `float64` values are modelled by exact rationals (`ℚ`): every arithmetic
  operation is the exact one, no rounding, no NaN and no infinities.  The only
  unguarded division by a non-constant in the source is the division by
  `height / cmInM` in `WalkingSpentCalories`; in `ℚ` a division by zero yields
  `0`, whereas Go yields an infinity or NaN.
* `int` values are modelled by `Int`; the source performs no integer
  arithmetic at all (every `int` is converted with `float64(...)` before it is
  used), so no wrap-around can occur, and the conversion is the exact cast.
* `fmt.Sprintf` is modelled by a small interpreter of the two verbs the source
  uses, `%s` and `%.2f`; `%.2f` renders the exact value rounded half-to-even to
  two decimals, with a leading `-` for every negative value.

It serves the properties that are identities between formulas, the dispatch
of `ShowTrainingInfo` and the closed scenarios.

The binary64 embedding (namespace `Ftracker.IEEE`):

* a `float64` is NaN, an infinity, or a finite value `(-1)^neg * m * 2^e`;
  `+`, `*`, `/`, the conversion `float64(int)` and the conversion of a
  constant return the exact result rounded to the nearest binary64 value, ties
  to even, with gradual underflow, overflow to an infinity and the IEEE 754
  rules for zeros, infinities and NaN (NaN payloads are not distinguished);
* every operation rounds on its own (no fused multiply-add);
* `math.Pow(x, 2)` follows the Go library: its special cases, then the square
  of the mantissa rounded to 53 bits and scaled by `Ldexp`;
* `%.2f` renders `NaN`, `+Inf`, `-Inf`, or the exact binary value rounded
  half-to-even to two decimals, with a `-` whenever the sign bit is set.

It serves the properties whose truth depends on overflow, underflow, NaN or
the sign of a zero.
-/

namespace Ftracker

/-! ## Constants (`ftracker.go`, lines 9-15, 72-75, 96-99, 123-126) -/

/-- Average step length, in metres. -/
def lenStep : ℚ := 0.65

/-- Metres in a kilometre. -/
def mInKm : ℚ := 1000

/-- Minutes in an hour. -/
def minInH : ℚ := 60

/-- Coefficient converting km/h to m/s. -/
def kmhInMsec : ℚ := 0.278

/-- Centimetres in a metre. -/
def cmInM : ℚ := 100

/-- Mean speed multiplier for running (redeclared with the same value inside
`RunningSpentCalories`). -/
def runningCaloriesMeanSpeedMultiplier : ℚ := 18

/-- Mean speed shift for running (redeclared with the same value inside
`RunningSpentCalories`). -/
def runningCaloriesMeanSpeedShift : ℚ := 1.79

/-- Body weight multiplier for walking (redeclared with the same value inside
`WalkingSpentCalories`). -/
def walkingCaloriesWeightMultiplier : ℚ := 0.035

/-- Height multiplier for walking (redeclared with the same value inside
`WalkingSpentCalories`). -/
def walkingSpeedHeightMultiplier : ℚ := 0.029

/-- Mean speed shift for swimming (redeclared with the same value inside
`SwimmingSpentCalories`). -/
def swimmingCaloriesMeanSpeedShift : ℚ := 1.1

/-- Weight multiplier for swimming (redeclared with the same value inside
`SwimmingSpentCalories`). -/
def swimmingCaloriesWeightMultiplier : ℚ := 2

/-! ## Calculators -/

/-- Go `math.Pow(x, y)` at a natural exponent (the source only calls it with
the literal exponent `2`). -/
def mathPow (x : ℚ) (y : Nat) : ℚ := x ^ y

/-- Source `distance` (lines 22-24):
`return float64(action) * lenStep / mInKm`. -/
def distance (action : Int) : ℚ :=
  (action : ℚ) * lenStep / mInKm

/-- Source `meanSpeed` (lines 32-38): zero for a zero duration, otherwise
`distance(action) / duration`. -/
def meanSpeed (action : Int) (duration : ℚ) : ℚ :=
  if duration = 0 then 0
  else
    let distance := distance action
    distance / duration

/-- Source `RunningSpentCalories` (lines 84-92). -/
def RunningSpentCalories (action : Int) (weight duration : ℚ) : ℚ :=
  let speed := meanSpeed action duration
  let calories :=
    ((runningCaloriesMeanSpeedMultiplier * speed * runningCaloriesMeanSpeedShift)
      * weight / mInKm * duration * minInH)
  calories

/-- Source `WalkingSpentCalories` (lines 109-119), over exact arithmetic: the
division by `height / cmInM` neither underflows nor yields an infinity or NaN
here (see `IEEE.WalkingSpentCalories` for the binary64 behaviour). -/
def WalkingSpentCalories (action : Int) (duration weight height : ℚ) : ℚ :=
  let calories :=
    ((walkingCaloriesWeightMultiplier * weight
        + (mathPow (meanSpeed action duration * kmhInMsec) 2 / (height / cmInM))
          * walkingSpeedHeightMultiplier * weight)
      * duration * minInH)
  calories

/-- Source `swimmingMeanSpeed` (lines 135-140): zero for a zero duration,
otherwise `float64(lengthPool) * float64(countPool) / mInKm / duration`. -/
def swimmingMeanSpeed (lengthPool countPool : Int) (duration : ℚ) : ℚ :=
  if duration = 0 then 0
  else (lengthPool : ℚ) * (countPool : ℚ) / mInKm / duration

/-- Source `SwimmingSpentCalories` (lines 150-158), over exact arithmetic: no
product overflows here (see `IEEE.SwimmingSpentCalories` for the binary64
behaviour). -/
def SwimmingSpentCalories (lengthPool countPool : Int) (duration weight : ℚ) : ℚ :=
  let speed := swimmingMeanSpeed lengthPool countPool duration
  let calories :=
    (speed + swimmingCaloriesMeanSpeedShift) * swimmingCaloriesWeightMultiplier
      * weight * duration
  calories

/-! ## Formatting (`fmt.Sprintf` with the verbs `%s` and `%.2f`) -/

/-- Nearest integer of an exact value, ties going to the even neighbour (the
rounding `strconv` applies when it cuts a decimal expansion). -/
def roundHalfEven (x : ℚ) : Int :=
  let f := ⌊x⌋
  let r := x - f
  if r < 1 / 2 then f
  else if 1 / 2 < r then f + 1
  else if f % 2 = 0 then f
  else f + 1

/-- The `p` least significant decimal digits of `m`, zero padded. -/
def fracDigits : Nat → Nat → List Char
  | 0, _ => []
  | p + 1, m => fracDigits p (m / 10) ++ [Nat.digitChar (m % 10)]

/-- Characters of the Go rendering `%.<prec>f` of an exact value: optional
`-`, the integer part, and (when `prec > 0`) a point followed by exactly
`prec` digits. It renders the exact rational, so it prints neither `NaN`,
`+Inf` nor `-0.00`, and a value that lies exactly on a tie is rounded as the
rational, not as its binary64 neighbour (see `IEEE.formatFloatChars` for the
binary64 rendering). -/
def formatFloatChars (prec : Nat) (x : ℚ) : List Char :=
  let n := (roundHalfEven (|x| * 10 ^ prec)).toNat
  let digits := Nat.toDigits 10 (n / 10 ^ prec)
    ++ (if prec = 0 then [] else '.' :: fracDigits prec (n % 10 ^ prec))
  if x < 0 then '-' :: digits else digits

/-- The Go rendering `%.<prec>f` of a value, as a string. -/
def formatFloat (prec : Nat) (x : ℚ) : String :=
  String.mk (formatFloatChars prec x)

/-- An operand of `Sprintf`: the source passes one `string` and four
`float64` operands. -/
inductive Arg where
  | str (s : String)
  | float (x : ℚ)

/-- Interpreter of a format: `%s` consumes a string operand, `%.2f` a float
operand, every other character is copied.  (Verbs the source does not use, and
operands that do not match their verb, are not modelled: they are copied
literally.) -/
def sprintfAux : List Char → List Arg → List Char
  | [], _ => []
  | '%' :: 's' :: rest, Arg.str s :: args => s.data ++ sprintfAux rest args
  | '%' :: '.' :: '2' :: 'f' :: rest, Arg.float x :: args =>
      formatFloatChars 2 x ++ sprintfAux rest args
  | c :: rest, args => c :: sprintfAux rest args

/-- Go `fmt.Sprintf(format, args...)`. -/
def Sprintf (format : String) (args : List Arg) : String :=
  String.mk (sprintfAux format.data args)

/-! ## The dispatcher -/

/-- Source `ShowTrainingInfo` (lines 47-67): a `switch` over the training type
tag, three report branches and a default branch. -/
def ShowTrainingInfo (action : Int) (trainingType : String)
    (duration weight height : ℚ) (lengthPool countPool : Int) : String :=
  if trainingType = "Бег" then
    let distance := distance action
    let speed := meanSpeed action duration
    let calories := RunningSpentCalories action weight duration
    Sprintf "Тип тренировки: %s\nДлительность: %.2f ч.\nДистанция: %.2f км.\nСкорость: %.2f км/ч\nСожгли калорий: %.2f\n"
      [Arg.str trainingType, Arg.float duration, Arg.float distance, Arg.float speed,
        Arg.float calories]
  else if trainingType = "Ходьба" then
    let distance := distance action
    let speed := meanSpeed action duration
    let calories := WalkingSpentCalories action duration weight height
    Sprintf "Тип тренировки: %s\nДлительность: %.2f ч.\nДистанция: %.2f км.\nСкорость: %.2f км/ч\nСожгли калорий: %.2f\n"
      [Arg.str trainingType, Arg.float duration, Arg.float distance, Arg.float speed,
        Arg.float calories]
  else if trainingType = "Плавание" then
    let distance := distance action
    let speed := swimmingMeanSpeed lengthPool countPool duration
    let calories := SwimmingSpentCalories lengthPool countPool duration weight
    Sprintf "Тип тренировки: %s\nДлительность: %.2f ч.\nДистанция: %.2f км.\nСкорость: %.2f км/ч\nСожгли калорий: %.2f\n"
      [Arg.str trainingType, Arg.float duration, Arg.float distance, Arg.float speed,
        Arg.float calories]
  else
    "неизвестный тип тренировки"

/-! ## Observing a report -/

/-- Split a character list at every line feed. -/
def splitLines : List Char → List (List Char)
  | [] => [[]]
  | c :: cs =>
    if c = '\n' then [] :: splitLines cs
    else
      match splitLines cs with
      | [] => [[c]]
      | l :: ls => (c :: l) :: ls

/-- The lines of a string (the pieces between line feeds). -/
def reportLines (s : String) : List String :=
  (splitLines s.data).map String.mk

/-- Check that a string is a fixed-point numeral with exactly two digits after
the decimal point: an optional `-`, one or more digits, a point, two digits. -/
def isTwoDecimals (s : String) : Bool :=
  let body := if s.data.head? = some '-' then s.data.tail else s.data
  let intPart := body.takeWhile Char.isDigit
  match body.dropWhile Char.isDigit with
  | ['.', d1, d2] => !intPart.isEmpty && d1.isDigit && d2.isDigit
  | _ => false

/-- Two's complement wrap of an integer to 64 bits (what a Go `int` product
would produce on a 64-bit platform). -/
def wrapInt64 (n : Int) : Int :=
  (n + 2 ^ 63) % 2 ^ 64 - 2 ^ 63

end Ftracker

/-! ## The binary64 embedding -/

namespace Ftracker
namespace IEEE

/-- A binary64 value: NaN, an infinity, or the finite value
`(-1)^neg * m * 2^e` (a zero is a finite value with `m = 0`). -/
inductive F64 where
  | nan
  | inf (neg : Bool)
  | fin (neg : Bool) (m : Nat) (e : Int)
  deriving DecidableEq

/-- Binary logarithm of a natural number, rounded down, by repeated halving
(at most `fuel` times). -/
def log2Aux : Nat → Nat → Nat
  | 0, _ => 0
  | fuel + 1, n => if n < 2 then 0 else log2Aux fuel (n / 2) + 1

/-- Floor of the binary logarithm of a positive natural number. -/
def natLog2 (n : Nat) : Nat := log2Aux n n

/-- Floor of the binary logarithm of `num / den`, for `num`, `den` positive. -/
def floorLog2 (num den : Nat) : Int :=
  let c : Int := (natLog2 num : Int) - (natLog2 den : Int)
  if den * 2 ^ c.toNat ≤ num * 2 ^ (-c).toNat then c else c - 1

/-- Nearest integer of `n / d`, ties going to the even neighbour. -/
def divRoundEven (n d : Nat) : Nat :=
  let q := n / d
  let r := n % d
  if 2 * r < d then q
  else if d < 2 * r then q + 1
  else if q % 2 = 0 then q
  else q + 1

/-- Round the value `num / den` (with the sign `neg`) to 53 significant bits,
ties to even. With `bounded` the exponent range is that of binary64: values
below the normal range are rounded on the subnormal grid `2^-1074`, values
that round beyond the largest finite number become an infinity. Without it
the exponent is unbounded. -/
def roundBits (bounded : Bool) (neg : Bool) (num den : Nat) : F64 :=
  if num = 0 then F64.fin neg 0 0
  else
    let e0 := floorLog2 num den - 52
    let e := if bounded && decide (e0 < -1074) then -1074 else e0
    let m := divRoundEven (num * 2 ^ (-e).toNat) (den * 2 ^ e.toNat)
    if m = 0 then F64.fin neg 0 0
    else if m = 2 ^ 53 then
      (if bounded && decide (971 < e + 1) then F64.inf neg else F64.fin neg (2 ^ 52) (e + 1))
    else
      (if bounded && decide (971 < e) then F64.inf neg else F64.fin neg m e)

/-- Round `num / den` to the nearest binary64 value. -/
def round (neg : Bool) (num den : Nat) : F64 := roundBits true neg num den

/-- Round `n * 2^e` to the nearest binary64 value. -/
def roundScaled (neg : Bool) (n : Nat) (e : Int) : F64 :=
  round neg (n * 2 ^ e.toNat) (2 ^ (-e).toNat)

/-- Go conversion `float64(n)` of an integer. -/
def ofInt (n : Int) : F64 := round (decide (n < 0)) n.natAbs 1

/-- The binary64 value of a non-negative decimal constant `num / den`. -/
def ofConst (num den : Nat) : F64 := round false num den

/-- Go `x == 0`. -/
def F64.isZero : F64 → Bool
  | F64.fin _ m _ => decide (m = 0)
  | _ => false

/-- Go `x * y`. -/
def mul : F64 → F64 → F64
  | F64.nan, _ => F64.nan
  | _, F64.nan => F64.nan
  | F64.inf s, F64.inf t => F64.inf (xor s t)
  | F64.inf s, F64.fin t m _ => if m = 0 then F64.nan else F64.inf (xor s t)
  | F64.fin s m _, F64.inf t => if m = 0 then F64.nan else F64.inf (xor s t)
  | F64.fin s m e, F64.fin t n f => roundScaled (xor s t) (m * n) (e + f)

/-- Go `x / y`. -/
def div : F64 → F64 → F64
  | F64.nan, _ => F64.nan
  | _, F64.nan => F64.nan
  | F64.inf _, F64.inf _ => F64.nan
  | F64.inf s, F64.fin t _ _ => F64.inf (xor s t)
  | F64.fin s _ _, F64.inf t => F64.fin (xor s t) 0 0
  | F64.fin s m e, F64.fin t n f =>
    if n = 0 then (if m = 0 then F64.nan else F64.inf (xor s t))
    else round (xor s t) (m * 2 ^ (e - f).toNat) (n * 2 ^ (f - e).toNat)

/-- Go `x + y`. -/
def add : F64 → F64 → F64
  | F64.nan, _ => F64.nan
  | _, F64.nan => F64.nan
  | F64.inf s, F64.inf t => if s = t then F64.inf s else F64.nan
  | F64.inf s, F64.fin _ _ _ => F64.inf s
  | F64.fin _ _ _, F64.inf t => F64.inf t
  | F64.fin s m e, F64.fin t n f =>
    let g := min e f
    let a : Int := (if s then -1 else 1) * ((m * 2 ^ (e - g).toNat : Nat) : Int)
    let b : Int := (if t then -1 else 1) * ((n * 2 ^ (f - g).toNat : Nat) : Int)
    let c := a + b
    if c = 0 then F64.fin (s && t) 0 0
    else roundScaled (decide (c < 0)) c.natAbs g

/-- Go `math.Pow(x, 2)`: the special cases of `math.Pow`, then the square of
the mantissa rounded to 53 bits and scaled by `Ldexp`. -/
def pow2 : F64 → F64
  | F64.nan => F64.nan
  | F64.inf _ => F64.inf false
  | F64.fin _ m e =>
    if m = 0 then F64.fin false 0 0
    else
      match roundBits false false ((m * m) * 2 ^ (e + e).toNat) (2 ^ (-(e + e)).toNat) with
      | F64.fin _ n f => roundScaled false n f
      | y => y

end IEEE
end Ftracker

namespace Ftracker
namespace IEEE

/-! ### Constants as binary64 values -/

/-- Go constant `lenStep = 0.65`. -/
def lenStep : F64 := ofConst 65 100

/-- Go constant `mInKm = 1000`. -/
def mInKm : F64 := ofConst 1000 1

/-- Go constant `minInH = 60`. -/
def minInH : F64 := ofConst 60 1

/-- Go constant `kmhInMsec = 0.278`. -/
def kmhInMsec : F64 := ofConst 278 1000

/-- Go constant `cmInM = 100`. -/
def cmInM : F64 := ofConst 100 1

/-- Go constant `runningCaloriesMeanSpeedMultiplier = 18`. -/
def runningCaloriesMeanSpeedMultiplier : F64 := ofConst 18 1

/-- Go constant `runningCaloriesMeanSpeedShift = 1.79`. -/
def runningCaloriesMeanSpeedShift : F64 := ofConst 179 100

/-- Go constant `walkingCaloriesWeightMultiplier = 0.035`. -/
def walkingCaloriesWeightMultiplier : F64 := ofConst 35 1000

/-- Go constant `walkingSpeedHeightMultiplier = 0.029`. -/
def walkingSpeedHeightMultiplier : F64 := ofConst 29 1000

/-- Go constant `swimmingCaloriesMeanSpeedShift = 1.1`. -/
def swimmingCaloriesMeanSpeedShift : F64 := ofConst 11 10

/-- Go constant `swimmingCaloriesWeightMultiplier = 2`. -/
def swimmingCaloriesWeightMultiplier : F64 := ofConst 2 1

/-- The literal `0` of the two guards. -/
def zero : F64 := F64.fin false 0 0

/-! ### Calculators over binary64 -/

/-- Source `distance` (lines 22-24). -/
def distance (action : Int) : F64 :=
  div (mul (ofInt action) lenStep) mInKm

/-- Source `meanSpeed` (lines 32-38). -/
def meanSpeed (action : Int) (duration : F64) : F64 :=
  if duration.isZero then zero
  else
    let distance := distance action
    div distance duration

/-- Source `RunningSpentCalories` (lines 84-92). -/
def RunningSpentCalories (action : Int) (weight duration : F64) : F64 :=
  let speed := meanSpeed action duration
  let calories :=
    mul (mul (div (mul (mul (mul runningCaloriesMeanSpeedMultiplier speed)
      runningCaloriesMeanSpeedShift) weight) mInKm) duration) minInH
  calories

/-- Source `WalkingSpentCalories` (lines 109-119). -/
def WalkingSpentCalories (action : Int) (duration weight height : F64) : F64 :=
  let calories :=
    mul (mul
      (add (mul walkingCaloriesWeightMultiplier weight)
        (mul (mul (div (pow2 (mul (meanSpeed action duration) kmhInMsec))
          (div height cmInM)) walkingSpeedHeightMultiplier) weight))
      duration) minInH
  calories

/-- Source `swimmingMeanSpeed` (lines 135-140). -/
def swimmingMeanSpeed (lengthPool countPool : Int) (duration : F64) : F64 :=
  if duration.isZero then zero
  else div (div (mul (ofInt lengthPool) (ofInt countPool)) mInKm) duration

/-- Source `SwimmingSpentCalories` (lines 150-158). -/
def SwimmingSpentCalories (lengthPool countPool : Int) (duration weight : F64) : F64 :=
  let speed := swimmingMeanSpeed lengthPool countPool duration
  let calories :=
    mul (mul (mul (add speed swimmingCaloriesMeanSpeedShift)
      swimmingCaloriesWeightMultiplier) weight) duration
  calories

/-! ### Formatting over binary64 -/

/-- Characters of the Go rendering `%.<prec>f` of a binary64 value: `NaN`,
`+Inf`, `-Inf`, or the exact value rounded half-to-even to `prec` decimals,
with a `-` whenever the sign bit is set. -/
def formatFloatChars (prec : Nat) : F64 → List Char
  | F64.nan => ['N', 'a', 'N']
  | F64.inf s => if s then ['-', 'I', 'n', 'f'] else ['+', 'I', 'n', 'f']
  | F64.fin s m e =>
    let n := divRoundEven (m * 10 ^ prec * 2 ^ e.toNat) (2 ^ (-e).toNat)
    let digits := Nat.toDigits 10 (n / 10 ^ prec)
      ++ (if prec = 0 then [] else '.' :: fracDigits prec (n % 10 ^ prec))
    if s then '-' :: digits else digits

/-- The Go rendering `%.<prec>f` of a binary64 value, as a string. -/
def formatFloat (prec : Nat) (x : F64) : String :=
  String.mk (formatFloatChars prec x)

/-- An operand of `Sprintf`. -/
inductive Arg where
  | str (s : String)
  | float (x : F64)

/-- Interpreter of a format: `%s` consumes a string operand, `%.2f` a float
operand, every other character is copied. -/
def sprintfAux : List Char → List Arg → List Char
  | [], _ => []
  | '%' :: 's' :: rest, Arg.str s :: args => s.data ++ sprintfAux rest args
  | '%' :: '.' :: '2' :: 'f' :: rest, Arg.float x :: args =>
      formatFloatChars 2 x ++ sprintfAux rest args
  | c :: rest, args => c :: sprintfAux rest args

/-- Go `fmt.Sprintf(format, args...)`. -/
def Sprintf (format : String) (args : List Arg) : String :=
  String.mk (sprintfAux format.data args)

/-- Source `ShowTrainingInfo` (lines 47-67) over binary64. -/
def ShowTrainingInfo (action : Int) (trainingType : String)
    (duration weight height : F64) (lengthPool countPool : Int) : String :=
  if trainingType = "Бег" then
    let distance := distance action
    let speed := meanSpeed action duration
    let calories := RunningSpentCalories action weight duration
    Sprintf "Тип тренировки: %s\nДлительность: %.2f ч.\nДистанция: %.2f км.\nСкорость: %.2f км/ч\nСожгли калорий: %.2f\n"
      [Arg.str trainingType, Arg.float duration, Arg.float distance, Arg.float speed,
        Arg.float calories]
  else if trainingType = "Ходьба" then
    let distance := distance action
    let speed := meanSpeed action duration
    let calories := WalkingSpentCalories action duration weight height
    Sprintf "Тип тренировки: %s\nДлительность: %.2f ч.\nДистанция: %.2f км.\nСкорость: %.2f км/ч\nСожгли калорий: %.2f\n"
      [Arg.str trainingType, Arg.float duration, Arg.float distance, Arg.float speed,
        Arg.float calories]
  else if trainingType = "Плавание" then
    let distance := distance action
    let speed := swimmingMeanSpeed lengthPool countPool duration
    let calories := SwimmingSpentCalories lengthPool countPool duration weight
    Sprintf "Тип тренировки: %s\nДлительность: %.2f ч.\nДистанция: %.2f км.\nСкорость: %.2f км/ч\nСожгли калорий: %.2f\n"
      [Arg.str trainingType, Arg.float duration, Arg.float distance, Arg.float speed,
        Arg.float calories]
  else
    "неизвестный тип тренировки"

end IEEE
end Ftracker

namespace Ftracker
namespace IEEE

/-- Go `math.IsNaN(x)`. -/
def F64.isNaN : F64 → Bool
  | F64.nan => true
  | _ => false

/-- The value is finite (neither NaN nor an infinity). -/
def F64.isFinite : F64 → Bool
  | F64.fin _ _ _ => true
  | _ => false

end IEEE
end Ftracker

namespace Ftracker

/-! ## Auxiliary lemmas: line structure of a report -/

theorem splitLines_append_newline (l r : List Char) (h : '\n' ∉ l) :
    splitLines (l ++ '\n' :: r) = l :: splitLines r := by
  induction l with
  | nil => simp [splitLines]
  | cons c cs ih =>
    have hc : c ≠ '\n' := fun e => h (by simp [e])
    have hcs : '\n' ∉ cs := fun e => h (by simp [e])
    simp [splitLines, hc, ih hcs]

theorem splitLines_of_not_mem (l : List Char) (h : '\n' ∉ l) : splitLines l = [l] := by
  induction l with
  | nil => simp [splitLines]
  | cons c cs ih =>
    have hc : c ≠ '\n' := fun e => h (by simp [e])
    have hcs : '\n' ∉ cs := fun e => h (by simp [e])
    simp [splitLines, hc, ih hcs]

theorem digitChar_ne_newline (k : Nat) : Nat.digitChar k ≠ '\n' := by
  by_cases h : k < 16
  · interval_cases k <;> decide
  · have e : Nat.digitChar k = '*' := by
      unfold Nat.digitChar
      iterate 16 rw [if_neg (by omega)]
    rw [e]; decide

theorem toDigitsCore_no_newline (fuel n : Nat) (acc : List Char) (h : '\n' ∉ acc) :
    '\n' ∉ Nat.toDigitsCore 10 fuel n acc := by
  induction fuel generalizing n acc with
  | zero => simpa [Nat.toDigitsCore] using h
  | succ fuel ih =>
    have hacc : '\n' ∉ Nat.digitChar (n % 10) :: acc := by
      intro hm
      rcases List.mem_cons.1 hm with e | e
      · exact digitChar_ne_newline _ e.symm
      · exact h e
    simp only [Nat.toDigitsCore]
    split
    · exact hacc
    · exact ih _ _ hacc

theorem fracDigits_no_newline (p m : Nat) : '\n' ∉ fracDigits p m := by
  induction p generalizing m with
  | zero => simp [fracDigits]
  | succ p ih =>
    simp only [fracDigits, List.mem_append, List.mem_singleton, not_or]
    exact ⟨ih _, fun e => digitChar_ne_newline _ e.symm⟩

theorem formatFloatChars_no_newline (prec : Nat) (x : ℚ) :
    '\n' ∉ formatFloatChars prec x := by
  have hd : ∀ n, '\n' ∉ Nat.toDigits 10 n := fun n =>
    toDigitsCore_no_newline _ _ _ (by simp)
  have hf := fracDigits_no_newline
  unfold formatFloatChars
  simp only []
  split <;> split <;> simp [hd, hf]

/-- The characters `Sprintf` produces for the report format, line by line. -/
theorem sprintf_report_chars (t : String) (d x s c : ℚ) :
    sprintfAux
      "Тип тренировки: %s\nДлительность: %.2f ч.\nДистанция: %.2f км.\nСкорость: %.2f км/ч\nСожгли калорий: %.2f\n".data
      [Arg.str t, Arg.float d, Arg.float x, Arg.float s, Arg.float c]
    = ("Тип тренировки: ".data ++ t.data) ++ '\n' ::
      (("Длительность: ".data ++ formatFloatChars 2 d ++ " ч.".data) ++ '\n' ::
      (("Дистанция: ".data ++ formatFloatChars 2 x ++ " км.".data) ++ '\n' ::
      (("Скорость: ".data ++ formatFloatChars 2 s ++ " км/ч".data) ++ '\n' ::
      (("Сожгли калорий: ".data ++ formatFloatChars 2 c) ++ '\n' :: [])))) := by
  simp [sprintfAux]

/-- The lines of a report produced from the report format: five lines, then
the empty piece after the final line feed. -/
theorem reportLines_Sprintf (t : String) (ht : '\n' ∉ t.data) (d x s c : ℚ) :
    reportLines (Sprintf
      "Тип тренировки: %s\nДлительность: %.2f ч.\nДистанция: %.2f км.\nСкорость: %.2f км/ч\nСожгли калорий: %.2f\n"
      [Arg.str t, Arg.float d, Arg.float x, Arg.float s, Arg.float c])
    = ["Тип тренировки: " ++ t,
       "Длительность: " ++ formatFloat 2 d ++ " ч.",
       "Дистанция: " ++ formatFloat 2 x ++ " км.",
       "Скорость: " ++ formatFloat 2 s ++ " км/ч",
       "Сожгли калорий: " ++ formatFloat 2 c,
       ""] := by
  have hf := formatFloatChars_no_newline 2
  unfold reportLines Sprintf
  rw [sprintf_report_chars]
  rw [splitLines_append_newline _ _ (by simp [ht]),
    splitLines_append_newline _ _ (by simp [hf]),
    splitLines_append_newline _ _ (by simp [hf]),
    splitLines_append_newline _ _ (by simp [hf]),
    splitLines_append_newline _ _ (by simp [hf])]
  rfl

/-- The three report branches of `ShowTrainingInfo`, as calls of `Sprintf`. -/
theorem ShowTrainingInfo_running (action : Int) (duration weight height : ℚ)
    (lengthPool countPool : Int) :
    ShowTrainingInfo action "Бег" duration weight height lengthPool countPool
    = Sprintf
      "Тип тренировки: %s\nДлительность: %.2f ч.\nДистанция: %.2f км.\nСкорость: %.2f км/ч\nСожгли калорий: %.2f\n"
      [Arg.str "Бег", Arg.float duration, Arg.float (distance action),
        Arg.float (meanSpeed action duration),
        Arg.float (RunningSpentCalories action weight duration)] := by
  simp only [ShowTrainingInfo, if_true]

theorem ShowTrainingInfo_walking (action : Int) (duration weight height : ℚ)
    (lengthPool countPool : Int) :
    ShowTrainingInfo action "Ходьба" duration weight height lengthPool countPool
    = Sprintf
      "Тип тренировки: %s\nДлительность: %.2f ч.\nДистанция: %.2f км.\nСкорость: %.2f км/ч\nСожгли калорий: %.2f\n"
      [Arg.str "Ходьба", Arg.float duration, Arg.float (distance action),
        Arg.float (meanSpeed action duration),
        Arg.float (WalkingSpentCalories action duration weight height)] := by
  have hw : ("Ходьба" = "Бег") = False := by decide
  simp only [ShowTrainingInfo, hw, if_true, if_false]

theorem ShowTrainingInfo_swimming (action : Int) (duration weight height : ℚ)
    (lengthPool countPool : Int) :
    ShowTrainingInfo action "Плавание" duration weight height lengthPool countPool
    = Sprintf
      "Тип тренировки: %s\nДлительность: %.2f ч.\nДистанция: %.2f км.\nСкорость: %.2f км/ч\nСожгли калорий: %.2f\n"
      [Arg.str "Плавание", Arg.float duration, Arg.float (distance action),
        Arg.float (swimmingMeanSpeed lengthPool countPool duration),
        Arg.float (SwimmingSpentCalories lengthPool countPool duration weight)] := by
  have hs1 : ("Плавание" = "Бег") = False := by decide
  have hs2 : ("Плавание" = "Ходьба") = False := by decide
  simp only [ShowTrainingInfo, hs1, hs2, if_true, if_false]

/-- The lines of the three reports. -/
theorem reportLines_running (action : Int) (duration weight height : ℚ)
    (lengthPool countPool : Int) :
    reportLines (ShowTrainingInfo action "Бег" duration weight height lengthPool countPool)
    = ["Тип тренировки: Бег",
       "Длительность: " ++ formatFloat 2 duration ++ " ч.",
       "Дистанция: " ++ formatFloat 2 (distance action) ++ " км.",
       "Скорость: " ++ formatFloat 2 (meanSpeed action duration) ++ " км/ч",
       "Сожгли калорий: " ++ formatFloat 2 (RunningSpentCalories action weight duration),
       ""] := by
  rw [ShowTrainingInfo_running, reportLines_Sprintf _ (by decide)]
  rfl

theorem reportLines_walking (action : Int) (duration weight height : ℚ)
    (lengthPool countPool : Int) :
    reportLines (ShowTrainingInfo action "Ходьба" duration weight height lengthPool countPool)
    = ["Тип тренировки: Ходьба",
       "Длительность: " ++ formatFloat 2 duration ++ " ч.",
       "Дистанция: " ++ formatFloat 2 (distance action) ++ " км.",
       "Скорость: " ++ formatFloat 2 (meanSpeed action duration) ++ " км/ч",
       "Сожгли калорий: "
         ++ formatFloat 2 (WalkingSpentCalories action duration weight height),
       ""] := by
  rw [ShowTrainingInfo_walking, reportLines_Sprintf _ (by decide)]
  rfl

theorem reportLines_swimming (action : Int) (duration weight height : ℚ)
    (lengthPool countPool : Int) :
    reportLines (ShowTrainingInfo action "Плавание" duration weight height lengthPool countPool)
    = ["Тип тренировки: Плавание",
       "Длительность: " ++ formatFloat 2 duration ++ " ч.",
       "Дистанция: " ++ formatFloat 2 (distance action) ++ " км.",
       "Скорость: "
         ++ formatFloat 2 (swimmingMeanSpeed lengthPool countPool duration) ++ " км/ч",
       "Сожгли калорий: "
         ++ formatFloat 2 (SwimmingSpentCalories lengthPool countPool duration weight),
       ""] := by
  rw [ShowTrainingInfo_swimming, reportLines_Sprintf _ (by decide)]
  rfl

/-- Rendering of a non-negative value whose hundredfold is a natural number. -/
theorem formatFloatChars_two_of_nat (n : Nat) :
    formatFloatChars 2 ((n : ℚ) / 100)
    = Nat.toDigits 10 (n / 100) ++ '.' :: fracDigits 2 (n % 100) := by
  have h0 : ¬ ((n : ℚ) / 100 < 0) := by
    have : (0 : ℚ) ≤ (n : ℚ) / 100 := by positivity
    exact not_lt.mpr this
  have h1 : |(n : ℚ) / 100| * 10 ^ 2 = (n : ℚ) := by
    rw [abs_of_nonneg (by positivity)]
    ring
  have h2 : roundHalfEven (n : ℚ) = (n : Int) := by
    simp [roundHalfEven]
  simp only [formatFloatChars, h1, h2, if_neg h0, Int.toNat_ofNat]
  simp

/-! ## Verified properties -/

/-- C1: each recognised training type reports the speed and the calories of
its own calculators. The speed line and the calories line of the report render
`meanSpeed` and `RunningSpentCalories` for running (tag "Бег"), `meanSpeed` and
`WalkingSpentCalories` for walking (tag "Ходьба"), `swimmingMeanSpeed` and
`SwimmingSpentCalories` for swimming (tag "Плавание"), for all parameters. -/
theorem ShowTrainingInfo_matching_calculators (action : Int) (duration weight height : ℚ)
    (lengthPool countPool : Int) :
    ((reportLines (ShowTrainingInfo action "Бег" duration weight height lengthPool countPool))[3]?
        = some ("Скорость: " ++ formatFloat 2 (meanSpeed action duration) ++ " км/ч")
      ∧ (reportLines (ShowTrainingInfo action "Бег" duration weight height lengthPool countPool))[4]?
        = some ("Сожгли калорий: "
            ++ formatFloat 2 (RunningSpentCalories action weight duration)))
    ∧ ((reportLines (ShowTrainingInfo action "Ходьба" duration weight height lengthPool countPool))[3]?
        = some ("Скорость: " ++ formatFloat 2 (meanSpeed action duration) ++ " км/ч")
      ∧ (reportLines (ShowTrainingInfo action "Ходьба" duration weight height lengthPool countPool))[4]?
        = some ("Сожгли калорий: "
            ++ formatFloat 2 (WalkingSpentCalories action duration weight height)))
    ∧ ((reportLines (ShowTrainingInfo action "Плавание" duration weight height lengthPool countPool))[3]?
        = some ("Скорость: "
            ++ formatFloat 2 (swimmingMeanSpeed lengthPool countPool duration) ++ " км/ч")
      ∧ (reportLines (ShowTrainingInfo action "Плавание" duration weight height lengthPool countPool))[4]?
        = some ("Сожгли калорий: "
            ++ formatFloat 2 (SwimmingSpentCalories lengthPool countPool duration weight))) := by
  rw [reportLines_running, reportLines_walking, reportLines_swimming]
  exact ⟨⟨rfl, rfl⟩, ⟨rfl, rfl⟩, ⟨rfl, rfl⟩⟩

/-- C2, as stated, fails: for the tag "Cycling", which is none of "Running",
"Walking", "Swimming", the result is the literal "неизвестный тип тренировки"
and not the literal "unknown activity type"; and the tag "Running" itself is
not recognised either. -/
theorem ShowTrainingInfo_unknown_literal_counterexample :
    "Cycling" ≠ "Running" ∧ "Cycling" ≠ "Walking" ∧ "Cycling" ≠ "Swimming"
    ∧ ShowTrainingInfo 1000 "Cycling" 1 70 175 25 40 = "неизвестный тип тренировки"
    ∧ ShowTrainingInfo 1000 "Cycling" 1 70 175 25 40 ≠ "unknown activity type"
    ∧ ShowTrainingInfo 1000 "Running" 1 70 175 25 40 = "неизвестный тип тренировки" := by
  have h1 : ("Cycling" = "Бег") = False := by decide
  have h2 : ("Cycling" = "Ходьба") = False := by decide
  have h3 : ("Cycling" = "Плавание") = False := by decide
  have h4 : ("Running" = "Бег") = False := by decide
  have h5 : ("Running" = "Ходьба") = False := by decide
  have h6 : ("Running" = "Плавание") = False := by decide
  refine ⟨by decide, by decide, by decide, ?_, ?_, ?_⟩
  · simp only [ShowTrainingInfo, h1, h2, h3, if_false]
  · simp only [ShowTrainingInfo, h1, h2, h3, if_false]
    decide
  · simp only [ShowTrainingInfo, h4, h5, h6, if_false]

/-- C2 (amended): for every training type tag other than the three tags of
the source, "Бег", "Ходьба" and "Плавание", and for all other parameters,
`ShowTrainingInfo` returns exactly the literal "неизвестный тип тренировки",
a single line and no report. -/
theorem ShowTrainingInfo_unknown_type (action : Int) (trainingType : String)
    (duration weight height : ℚ) (lengthPool countPool : Int)
    (h1 : trainingType ≠ "Бег") (h2 : trainingType ≠ "Ходьба")
    (h3 : trainingType ≠ "Плавание") :
    ShowTrainingInfo action trainingType duration weight height lengthPool countPool
      = "неизвестный тип тренировки"
    ∧ reportLines
        (ShowTrainingInfo action trainingType duration weight height lengthPool countPool)
      = ["неизвестный тип тренировки"] := by
  have e : ShowTrainingInfo action trainingType duration weight height lengthPool countPool
      = "неизвестный тип тренировки" := by
    simp only [ShowTrainingInfo, if_neg h1, if_neg h2, if_neg h3]
  rw [e]
  exact ⟨rfl, by decide⟩

/-- Witness of `ShowTrainingInfo_unknown_type` at the tag "Cycling". -/
theorem ShowTrainingInfo_unknown_type_witness :
    ShowTrainingInfo 1000 "Cycling" 1 70 175 25 40 = "неизвестный тип тренировки"
    ∧ reportLines (ShowTrainingInfo 1000 "Cycling" 1 70 175 25 40)
      = ["неизвестный тип тренировки"] :=
  ShowTrainingInfo_unknown_type 1000 "Cycling" 1 70 175 25 40
    (by decide) (by decide) (by decide)

/-- C3: for every action count, weight and duration, `RunningSpentCalories`
equals `meanSpeed(action, duration) * 18 * 1.79 * weight / 1000 * duration * 60`. -/
theorem RunningSpentCalories_formula (action : Int) (weight duration : ℚ) :
    RunningSpentCalories action weight duration
    = meanSpeed action duration * 18 * 1.79 * weight / 1000 * duration * 60 := by
  simp only [RunningSpentCalories, runningCaloriesMeanSpeedMultiplier,
    runningCaloriesMeanSpeedShift, mInKm, minInH]
  rw [mul_comm 18 (meanSpeed action duration)]

/-- C4: for every action count, duration, weight and height,
`WalkingSpentCalories` equals
`(0.035 * weight + ((meanSpeed(action, duration) * 0.278)^2 / (height / 100))
  * 0.029 * weight) * duration * 60`. -/
theorem WalkingSpentCalories_formula (action : Int) (duration weight height : ℚ) :
    WalkingSpentCalories action duration weight height
    = (0.035 * weight
        + ((meanSpeed action duration * 0.278) ^ 2 / (height / 100)) * 0.029 * weight)
      * duration * 60 := by
  simp only [WalkingSpentCalories, walkingCaloriesWeightMultiplier,
    walkingSpeedHeightMultiplier, kmhInMsec, cmInM, minInH, mathPow]

/-- C5: for every pool length, crossing count, duration and weight,
`SwimmingSpentCalories` equals
`(swimmingMeanSpeed(poolLength, crossings, duration) + 1.1) * 2 * weight * duration`. -/
theorem SwimmingSpentCalories_formula (lengthPool countPool : Int) (duration weight : ℚ) :
    SwimmingSpentCalories lengthPool countPool duration weight
    = (swimmingMeanSpeed lengthPool countPool duration + 1.1) * 2 * weight * duration := by
  simp only [SwimmingSpentCalories, swimmingCaloriesMeanSpeedShift,
    swimmingCaloriesWeightMultiplier]

/-- C6: when the duration is exactly zero, `meanSpeed` and `swimmingMeanSpeed`
both return 0, for every action count, pool length and crossing count (both
functions are total, the zero is an ordinary result). -/
theorem meanSpeed_swimmingMeanSpeed_zero_duration (action lengthPool countPool : Int) :
    meanSpeed action 0 = 0 ∧ swimmingMeanSpeed lengthPool countPool 0 = 0 := by
  constructor
  · simp only [meanSpeed, if_true]
  · simp only [swimmingMeanSpeed, if_true]

/-- C7: for every action count `a` and every duration `d > 0`,
`meanSpeed a d` equals `distance a / d`. -/
theorem meanSpeed_pos_duration (action : Int) (duration : ℚ) (h : 0 < duration) :
    meanSpeed action duration = distance action / duration := by
  simp only [meanSpeed, if_neg (ne_of_gt h)]

/-- Witness of `meanSpeed_pos_duration`: 1000 steps in 2 hours. -/
theorem meanSpeed_pos_duration_witness :
    (0 : ℚ) < 2 ∧ meanSpeed 1000 2 = distance 1000 / 2 :=
  ⟨by norm_num, meanSpeed_pos_duration 1000 2 (by norm_num)⟩

/-- C8: for every pool length, crossing count and non-zero duration,
`swimmingMeanSpeed` equals `poolLength * crossings / 1000 / duration`, the
product being the unbounded integer product; at pool length `2^32` and `2^32`
crossings it differs from the value a product wrapped to 64 bits would give. -/
theorem swimmingMeanSpeed_nonzero_duration (lengthPool countPool : Int) (duration : ℚ)
    (h : duration ≠ 0) :
    swimmingMeanSpeed lengthPool countPool duration
      = ((lengthPool * countPool : Int) : ℚ) / 1000 / duration
    ∧ swimmingMeanSpeed (2 ^ 32) (2 ^ 32) 1
      ≠ ((wrapInt64 (2 ^ 32 * 2 ^ 32) : Int) : ℚ) / 1000 / 1 := by
  constructor
  · simp only [swimmingMeanSpeed, if_neg h, mInKm, Int.cast_mul]
  · have hw : wrapInt64 (2 ^ 32 * 2 ^ 32) = 0 := by decide
    rw [hw]
    norm_num [swimmingMeanSpeed, mInKm]

/-- Witness of `swimmingMeanSpeed_nonzero_duration`: a 25 m pool crossed 40
times in 2 hours. -/
theorem swimmingMeanSpeed_nonzero_duration_witness :
    (2 : ℚ) ≠ 0
    ∧ swimmingMeanSpeed 25 40 2 = (((25 : Int) * 40 : Int) : ℚ) / 1000 / 2 :=
  ⟨by norm_num, (swimmingMeanSpeed_nonzero_duration 25 40 2 (by norm_num)).1⟩

/-- C9: for every non-negative integer `a`, `distance a` equals
`a * 0.65 / 1000`; in particular `distance 0 = 0`. -/
theorem distance_formula (a : Nat) :
    distance (Int.ofNat a) = (a : ℚ) * 0.65 / 1000 ∧ distance 0 = 0 := by
  constructor
  · simp only [distance, lenStep, mInKm, Int.ofNat_eq_coe, Int.cast_natCast]
  · simp only [distance, Int.cast_zero, zero_mul, zero_div]

/-- C10: for each of the three recognised training types the distance line
of the report renders `distance action`; the distance line of a swimming
report is the same for all pool lengths and crossing counts, while its speed
line changes with them (1000 actions in one hour: "0.65" km in both a 25 m and
a 50 m pool crossed 40 times, but "1.00" against "2.00" km/h). -/
theorem ShowTrainingInfo_distance_action_based :
    (∀ (action : Int) (duration weight height : ℚ) (lengthPool countPool : Int),
      (reportLines (ShowTrainingInfo action "Бег" duration weight height lengthPool countPool))[2]?
        = some ("Дистанция: " ++ formatFloat 2 (distance action) ++ " км.")
      ∧ (reportLines (ShowTrainingInfo action "Ходьба" duration weight height lengthPool countPool))[2]?
        = some ("Дистанция: " ++ formatFloat 2 (distance action) ++ " км.")
      ∧ (reportLines (ShowTrainingInfo action "Плавание" duration weight height lengthPool countPool))[2]?
        = some ("Дистанция: " ++ formatFloat 2 (distance action) ++ " км."))
    ∧ (∀ (action : Int) (duration weight height : ℚ) (l1 c1 l2 c2 : Int),
      (reportLines (ShowTrainingInfo action "Плавание" duration weight height l1 c1))[2]?
        = (reportLines (ShowTrainingInfo action "Плавание" duration weight height l2 c2))[2]?)
    ∧ (reportLines (ShowTrainingInfo 1000 "Плавание" 1 70 175 25 40))[2]?
        = some "Дистанция: 0.65 км."
    ∧ (reportLines (ShowTrainingInfo 1000 "Плавание" 1 70 175 50 40))[2]?
        = some "Дистанция: 0.65 км."
    ∧ (reportLines (ShowTrainingInfo 1000 "Плавание" 1 70 175 25 40))[3]?
        = some "Скорость: 1.00 км/ч"
    ∧ (reportLines (ShowTrainingInfo 1000 "Плавание" 1 70 175 50 40))[3]?
        = some "Скорость: 2.00 км/ч" := by
  have hd : formatFloat 2 (distance 1000) = "0.65" := by
    have e : distance 1000 = ((65 : Nat) : ℚ) / 100 := by
      norm_num [distance, lenStep, mInKm]
    rw [formatFloat, e, formatFloatChars_two_of_nat]
    decide
  have hs1 : formatFloat 2 (swimmingMeanSpeed 25 40 1) = "1.00" := by
    have e : swimmingMeanSpeed 25 40 1 = ((100 : Nat) : ℚ) / 100 := by
      norm_num [swimmingMeanSpeed, mInKm]
    rw [formatFloat, e, formatFloatChars_two_of_nat]
    decide
  have hs2 : formatFloat 2 (swimmingMeanSpeed 50 40 1) = "2.00" := by
    have e : swimmingMeanSpeed 50 40 1 = ((200 : Nat) : ℚ) / 100 := by
      norm_num [swimmingMeanSpeed, mInKm]
    rw [formatFloat, e, formatFloatChars_two_of_nat]
    decide
  refine ⟨?_, ?_, ?_, ?_, ?_, ?_⟩
  · intro action duration weight height lengthPool countPool
    rw [reportLines_running, reportLines_walking, reportLines_swimming]
    exact ⟨rfl, rfl, rfl⟩
  · intro action duration weight height l1 c1 l2 c2
    rw [reportLines_swimming, reportLines_swimming]
    simp only [List.getElem?_cons_succ, List.getElem?_cons_zero]
  · rw [reportLines_swimming, hd]
    simp only [List.getElem?_cons_succ, List.getElem?_cons_zero]
    decide
  · rw [reportLines_swimming, hd]
    simp only [List.getElem?_cons_succ, List.getElem?_cons_zero]
    decide
  · rw [reportLines_swimming, hs1]
    simp only [List.getElem?_cons_succ, List.getElem?_cons_zero]
    decide
  · rw [reportLines_swimming, hs2]
    simp only [List.getElem?_cons_succ, List.getElem?_cons_zero]
    decide

end Ftracker

namespace Ftracker

/-- C11: parameters a training type does not use do not influence the result
of `ShowTrainingInfo`. With all other arguments equal, a running report is the
same for every height, pool length and crossing count; a walking report is the
same for every pool length and crossing count; a swimming report is the same
for every height; and for a tag that is none of the three recognised ones the
result is the same for all numeric arguments. -/
theorem ShowTrainingInfo_unused_parameters
    (action action' : Int) (duration duration' weight weight' height height' : ℚ)
    (lengthPool lengthPool' countPool countPool' : Int) (trainingType : String)
    (h1 : trainingType ≠ "Бег") (h2 : trainingType ≠ "Ходьба")
    (h3 : trainingType ≠ "Плавание") :
    ShowTrainingInfo action "Бег" duration weight height lengthPool countPool
      = ShowTrainingInfo action "Бег" duration weight height' lengthPool' countPool'
    ∧ ShowTrainingInfo action "Ходьба" duration weight height lengthPool countPool
      = ShowTrainingInfo action "Ходьба" duration weight height lengthPool' countPool'
    ∧ ShowTrainingInfo action "Плавание" duration weight height lengthPool countPool
      = ShowTrainingInfo action "Плавание" duration weight height' lengthPool countPool
    ∧ ShowTrainingInfo action trainingType duration weight height lengthPool countPool
      = ShowTrainingInfo action' trainingType duration' weight' height' lengthPool'
          countPool' := by
  refine ⟨?_, ?_, ?_, ?_⟩
  · rw [ShowTrainingInfo_running, ShowTrainingInfo_running]
  · rw [ShowTrainingInfo_walking, ShowTrainingInfo_walking]
  · rw [ShowTrainingInfo_swimming, ShowTrainingInfo_swimming]
  · simp only [ShowTrainingInfo, if_neg h1, if_neg h2, if_neg h3]

/-- Witness of `ShowTrainingInfo_unused_parameters`, the unknown tag being
"Cycling". -/
theorem ShowTrainingInfo_unused_parameters_witness :
    ShowTrainingInfo 1000 "Бег" 1 70 175 25 40
      = ShowTrainingInfo 1000 "Бег" 1 70 180 50 20
    ∧ ShowTrainingInfo 1000 "Ходьба" 1 70 175 25 40
      = ShowTrainingInfo 1000 "Ходьба" 1 70 175 50 20
    ∧ ShowTrainingInfo 1000 "Плавание" 1 70 175 25 40
      = ShowTrainingInfo 1000 "Плавание" 1 70 180 25 40
    ∧ ShowTrainingInfo 1000 "Cycling" 1 70 175 25 40
      = ShowTrainingInfo 2000 "Cycling" 2 80 180 50 20 :=
  ShowTrainingInfo_unused_parameters 1000 2000 1 2 70 80 175 180 25 50 40 20 "Cycling"
    (by decide) (by decide) (by decide)

/-- C13: swimming scenario. For a 25 m pool crossed 40 times in 1.0 h by a
70 kg swimmer, `swimmingMeanSpeed` is 1.0 km/h and `SwimmingSpentCalories` is
`(1.0 + 1.1) * 2 * 70 * 1.0 = 294.0`. -/
theorem swimming_scenario :
    swimmingMeanSpeed 25 40 1.0 = 1.0
    ∧ SwimmingSpentCalories 25 40 1.0 70 = (1.0 + 1.1) * 2 * 70 * 1.0
    ∧ SwimmingSpentCalories 25 40 1.0 70 = 294.0 := by
  have hs : swimmingMeanSpeed 25 40 1.0 = 1.0 := by
    norm_num [swimmingMeanSpeed, mInKm]
  refine ⟨hs, ?_, ?_⟩
  · simp only [SwimmingSpentCalories, hs, swimmingCaloriesMeanSpeedShift,
      swimmingCaloriesWeightMultiplier]
  · simp only [SwimmingSpentCalories, hs, swimmingCaloriesMeanSpeedShift,
      swimmingCaloriesWeightMultiplier]
    norm_num

/-- C17: over exact arithmetic `RunningSpentCalories` does not depend on a
non-zero duration. For every action count `a`, weight `w` and durations
`d1 ≠ 0`, `d2 ≠ 0`, both values equal `18 * 1.79 * distance a * w / 1000 * 60`,
because `meanSpeed a d * d = distance a`. -/
theorem RunningSpentCalories_duration_independent (action : Int) (weight d1 d2 : ℚ)
    (h1 : d1 ≠ 0) (h2 : d2 ≠ 0) :
    RunningSpentCalories action weight d1 = RunningSpentCalories action weight d2
    ∧ RunningSpentCalories action weight d2
      = 18 * 1.79 * distance action * weight / 1000 * 60
    ∧ meanSpeed action d1 * d1 = distance action := by
  have key : ∀ d : ℚ, d ≠ 0 →
      RunningSpentCalories action weight d
        = 18 * 1.79 * distance action * weight / 1000 * 60 := by
    intro d hd
    simp only [RunningSpentCalories, meanSpeed, if_neg hd,
      runningCaloriesMeanSpeedMultiplier, runningCaloriesMeanSpeedShift, mInKm, minInH]
    field_simp
    ring
  refine ⟨by rw [key d1 h1, key d2 h2], key d2 h2, ?_⟩
  simp only [meanSpeed, if_neg h1]
  field_simp

/-- Witness of `RunningSpentCalories_duration_independent`: 1000 steps, 70 kg,
one hour against two hours. -/
theorem RunningSpentCalories_duration_independent_witness :
    (1 : ℚ) ≠ 0 ∧ (2 : ℚ) ≠ 0
    ∧ RunningSpentCalories 1000 70 1 = RunningSpentCalories 1000 70 2
    ∧ RunningSpentCalories 1000 70 2 = 18 * 1.79 * distance 1000 * 70 / 1000 * 60
    ∧ meanSpeed 1000 1 * 1 = distance 1000 :=
  ⟨by norm_num, by norm_num,
    RunningSpentCalories_duration_independent 1000 70 1 2 (by norm_num) (by norm_num)⟩

end Ftracker

namespace Ftracker

/-- Value of the running scenario: 1000 steps in one hour at 70 kg. -/
theorem RunningSpentCalories_scenario_value :
    RunningSpentCalories 1000 70 1 = 439803 / 5000 := by
  norm_num [RunningSpentCalories, meanSpeed, distance, lenStep, mInKm, minInH,
    runningCaloriesMeanSpeedMultiplier, runningCaloriesMeanSpeedShift]

/-- Two-decimal rendering of the value of the running scenario. -/
theorem formatFloat_running_scenario :
    formatFloat 2 (439803 / 5000) = "87.96" := by
  have h0 : ¬ ((439803 / 5000 : ℚ) < 0) := by norm_num
  have h1 : |(439803 / 5000 : ℚ)| * 10 ^ 2 = 439803 / 50 := by
    rw [abs_of_pos (by norm_num)]
    norm_num
  have hfl : ⌊(439803 / 50 : ℚ)⌋ = 8796 := by
    rw [Int.floor_eq_iff]
    norm_num
  have h2 : roundHalfEven (439803 / 50) = 8796 := by
    simp only [roundHalfEven, hfl]
    norm_num
  simp only [formatFloat, formatFloatChars, h1, h2, if_neg h0]
  decide

/-- C12, as stated, fails: the running scenario's calories,
`18*0.65*1.79*70/1000*1.0*60`, are 87.9606, rendered "87.96" at two decimals;
this is neither "81.48" nor within 0.005 of 81.48. -/
theorem running_scenario_not_81_48 :
    RunningSpentCalories 1000 70 1.0 = 18 * 0.65 * 1.79 * 70 / 1000 * 1.0 * 60
    ∧ (18 * 0.65 * 1.79 * 70 / 1000 * 1.0 * 60 : ℚ) = 87.9606
    ∧ ¬ (|RunningSpentCalories 1000 70 1.0 - 81.48| ≤ 0.005)
    ∧ formatFloat 2 (RunningSpentCalories 1000 70 1.0) ≠ "81.48" := by
  have hv : RunningSpentCalories 1000 70 1.0 = 439803 / 5000 := by
    rw [← RunningSpentCalories_scenario_value]
    norm_num
  refine ⟨?_, by norm_num, ?_, ?_⟩
  · rw [hv]; norm_num
  · rw [hv, abs_of_pos (by norm_num)]
    norm_num
  · rw [hv, formatFloat_running_scenario]
    decide

/-- C12 (amended): running scenario. For 1000 steps in 1.0 h at 70 kg,
`distance` is 0.65 km, `meanSpeed` is 0.65 km/h and `RunningSpentCalories` is
`18*0.65*1.79*70/1000*1.0*60`, that is 87.9606, which is "87.96" when rounded
to 2 decimal places. -/
theorem running_scenario :
    distance 1000 = 0.65
    ∧ meanSpeed 1000 1.0 = 0.65
    ∧ RunningSpentCalories 1000 70 1.0 = 18 * 0.65 * 1.79 * 70 / 1000 * 1.0 * 60
    ∧ RunningSpentCalories 1000 70 1.0 = 87.9606
    ∧ formatFloat 2 (RunningSpentCalories 1000 70 1.0) = "87.96" := by
  have hv : RunningSpentCalories 1000 70 1.0 = 439803 / 5000 := by
    rw [← RunningSpentCalories_scenario_value]
    norm_num
  refine ⟨?_, ?_, ?_, ?_, ?_⟩
  · norm_num [distance, lenStep, mInKm]
  · norm_num [meanSpeed, distance, lenStep, mInKm]
  · rw [hv]; norm_num
  · rw [hv]; norm_num
  · rw [hv, formatFloat_running_scenario]

end Ftracker

namespace Ftracker

/-! ## Auxiliary lemmas: shape of a two-decimal rendering -/

theorem digitChar_isDigit (k : Nat) (h : k < 10) : (Nat.digitChar k).isDigit = true := by
  interval_cases k <;> decide

theorem toDigitsCore_isDigit (fuel n : Nat) (acc : List Char)
    (h : ∀ c ∈ acc, c.isDigit = true) :
    ∀ c ∈ Nat.toDigitsCore 10 fuel n acc, c.isDigit = true := by
  induction fuel generalizing n acc with
  | zero => simpa [Nat.toDigitsCore] using h
  | succ fuel ih =>
    have hacc : ∀ c ∈ Nat.digitChar (n % 10) :: acc, c.isDigit = true := by
      intro c hm
      rcases List.mem_cons.1 hm with e | e
      · rw [e]; exact digitChar_isDigit _ (Nat.mod_lt _ (by decide))
      · exact h c e
    simp only [Nat.toDigitsCore]
    split
    · exact hacc
    · exact ih _ _ hacc

theorem toDigitsCore_ne_nil (fuel n : Nat) (acc : List Char) (h : acc ≠ []) :
    Nat.toDigitsCore 10 fuel n acc ≠ [] := by
  induction fuel generalizing n acc with
  | zero => simpa [Nat.toDigitsCore] using h
  | succ fuel ih =>
    simp only [Nat.toDigitsCore]
    split
    · exact List.cons_ne_nil _ _
    · exact ih _ _ (List.cons_ne_nil _ _)

theorem toDigits_ne_nil (n : Nat) : Nat.toDigits 10 n ≠ [] := by
  simp only [Nat.toDigits, Nat.toDigitsCore]
  split
  · exact List.cons_ne_nil _ _
  · exact toDigitsCore_ne_nil _ _ _ (List.cons_ne_nil _ _)

theorem takeWhile_isDigit_append_point (l r : List Char)
    (h : ∀ c ∈ l, c.isDigit = true) :
    (l ++ '.' :: r).takeWhile Char.isDigit = l
    ∧ (l ++ '.' :: r).dropWhile Char.isDigit = '.' :: r := by
  induction l with
  | nil =>
    have hp : Char.isDigit '.' = false := by decide
    simp [List.takeWhile, List.dropWhile, hp]
  | cons c cs ih =>
    have hc : c.isDigit = true := h c (by simp)
    have hcs := ih (fun d hd => h d (by simp [hd]))
    simp [List.takeWhile, List.dropWhile, hc, hcs.1, hcs.2]

/-- A digit string followed by a point and two digits, with or without a
leading `-`, passes `isTwoDecimals`. -/
theorem isTwoDecimals_of_shape (neg : Bool) (l : List Char) (d1 d2 : Char)
    (hl : l ≠ []) (h : ∀ c ∈ l, c.isDigit = true)
    (h1 : d1.isDigit = true) (h2 : d2.isDigit = true) :
    isTwoDecimals (String.mk ((if neg then ['-'] else []) ++ (l ++ ['.', d1, d2])))
      = true := by
  obtain ⟨c, cs, rfl⟩ := List.exists_cons_of_ne_nil hl
  have hc : c.isDigit = true := h c (by simp)
  have hne : c ≠ '-' := by
    intro e
    rw [e] at hc
    exact absurd hc (by decide)
  have htd := takeWhile_isDigit_append_point (c :: cs) [d1, d2] h
  cases neg with
  | true =>
    simp only [isTwoDecimals, if_true, List.cons_append, List.nil_append, List.head?_cons,
      List.tail_cons]
    rw [← List.cons_append, htd.1, htd.2]
    simp [h1, h2]
  | false =>
    have hh : ¬ (some c = some '-') := fun e => hne (Option.some.inj e)
    simp only [isTwoDecimals, List.cons_append, List.nil_append, List.head?_cons, if_neg hh,
      Bool.false_eq_true, if_false]
    rw [← List.cons_append, htd.1, htd.2]
    simp [h1, h2]

end Ftracker

namespace Ftracker
namespace IEEE

/-! ## Auxiliary lemmas: binary64 arithmetic -/

theorem roundBits_shape (b s : Bool) (num den : Nat) :
    roundBits b s num den = F64.inf s ∨ ∃ m e, roundBits b s num den = F64.fin s m e := by
  unfold roundBits
  simp only []
  split_ifs
  all_goals first
    | exact Or.inl rfl
    | exact Or.inr ⟨_, _, rfl⟩

theorem roundBits_zero (b s : Bool) (den : Nat) :
    roundBits b s 0 den = F64.fin s 0 0 := by
  simp [roundBits]

theorem round_shape (s : Bool) (num den : Nat) :
    round s num den = F64.inf s ∨ ∃ m e, round s num den = F64.fin s m e :=
  roundBits_shape true s num den

theorem roundScaled_shape (s : Bool) (n : Nat) (e : Int) :
    roundScaled s n e = F64.inf s ∨ ∃ m f, roundScaled s n e = F64.fin s m f :=
  round_shape s _ _

theorem roundScaled_zero (s : Bool) (e : Int) : roundScaled s 0 e = F64.fin s 0 0 := by
  simp [roundScaled, round, roundBits_zero]

/-- A product by a zero is a zero when the other factor is finite. -/
theorem mul_zero_right (s t : Bool) (m : Nat) (e f : Int) :
    mul (F64.fin s m e) (F64.fin t 0 f) = F64.fin (xor s t) 0 0 := by
  simp [mul, roundScaled_zero]

theorem mul_zero_left (s t : Bool) (n : Nat) (e f : Int) :
    mul (F64.fin s 0 e) (F64.fin t n f) = F64.fin (xor s t) 0 0 := by
  simp [mul, roundScaled_zero]

/-- The product of a value that is not finite by a zero is NaN. -/
theorem mul_zero_of_not_finite (x : F64) (t : Bool) (f : Int) (h : x.isFinite = false) :
    mul x (F64.fin t 0 f) = F64.nan := by
  cases x with
  | nan => simp [mul]
  | inf s => simp [mul]
  | fin s m e => simp [F64.isFinite] at h

end IEEE
end Ftracker

namespace Ftracker
namespace IEEE

end IEEE
end Ftracker

namespace Ftracker
namespace IEEE

/-- A product by a zero is a zero when the other factor is finite and NaN
when it is not. -/
theorem mul_by_zero (x d : F64) (hd : d.isZero = true) :
    (x.isFinite = true → (mul x d).isZero = true)
    ∧ (x.isFinite = false → mul x d = F64.nan) := by
  cases d with
  | nan => simp [F64.isZero] at hd
  | inf t => simp [F64.isZero] at hd
  | fin t n f =>
    have hn : n = 0 := by simpa [F64.isZero] using hd
    subst hn
    cases x with
    | nan => simp [mul, F64.isFinite]
    | inf s => simp [mul, F64.isFinite]
    | fin s m e => simp [mul_zero_right, F64.isFinite, F64.isZero]

/-- A zero or NaN multiplied by a finite value stays a zero or NaN. -/
theorem mul_zero_or_nan_fin (y c : F64) (hc : c.isFinite = true)
    (hy : y.isZero = true ∨ y = F64.nan) :
    (mul y c).isZero = true ∨ mul y c = F64.nan := by
  cases c with
  | nan => simp [F64.isFinite] at hc
  | inf t => simp [F64.isFinite] at hc
  | fin t n f =>
    rcases hy with hy | hy
    · cases y with
      | nan => simp [F64.isZero] at hy
      | inf s => simp [F64.isZero] at hy
      | fin s m e =>
        have hm : m = 0 := by simpa [F64.isZero] using hy
        subst hm
        left
        simp [mul_zero_left, F64.isZero]
    · right
      subst hy
      simp [mul]

/-- A product by a zero is a zero or NaN. -/
theorem mul_by_zero_cases (x d : F64) (hd : d.isZero = true) :
    (mul x d).isZero = true ∨ mul x d = F64.nan := by
  cases hx : x.isFinite with
  | true => exact Or.inl ((mul_by_zero x d hd).1 hx)
  | false => exact Or.inr ((mul_by_zero x d hd).2 hx)

theorem minInH_eq : minInH = F64.fin false 8444249301319680 (-47) := by decide
end IEEE
end Ftracker

namespace Ftracker
namespace IEEE

/-! ### Conversions of machine integers are finite -/

end IEEE
end Ftracker

namespace Ftracker
namespace IEEE

theorem isNaN_iff (x : F64) : x.isNaN = true ↔ x = F64.nan := by
  cases x <;> simp [F64.isNaN]

theorem meanSpeed_of_isZero (action : Int) (duration : F64) (hd : duration.isZero = true) :
    meanSpeed action duration = zero := by
  simp [meanSpeed, hd]

theorem swimmingMeanSpeed_of_isZero (lengthPool countPool : Int) (duration : F64)
    (hd : duration.isZero = true) : swimmingMeanSpeed lengthPool countPool duration = zero := by
  simp [swimmingMeanSpeed, hd]

theorem minInH_isFinite : minInH.isFinite = true := by
  rw [minInH_eq]; rfl

/-- With a zero duration every calorie calculator returns a zero or NaN. -/
theorem calories_zero_or_nan (action lengthPool countPool : Int)
    (duration weight height : F64) (hd : duration.isZero = true) :
    ((RunningSpentCalories action weight duration).isZero = true
      ∨ RunningSpentCalories action weight duration = F64.nan)
    ∧ ((WalkingSpentCalories action duration weight height).isZero = true
      ∨ WalkingSpentCalories action duration weight height = F64.nan)
    ∧ ((SwimmingSpentCalories lengthPool countPool duration weight).isZero = true
      ∨ SwimmingSpentCalories lengthPool countPool duration weight = F64.nan) := by
  refine ⟨?_, ?_, ?_⟩
  · simp only [RunningSpentCalories]
    exact mul_zero_or_nan_fin _ _ minInH_isFinite (mul_by_zero_cases _ _ hd)
  · simp only [WalkingSpentCalories]
    exact mul_zero_or_nan_fin _ _ minInH_isFinite (mul_by_zero_cases _ _ hd)
  · simp only [SwimmingSpentCalories]
    exact mul_by_zero_cases _ _ hd

/-- C15, as stated, fails: there are no inputs with a zero duration for which
a calorie calculator returns a nonzero number (a value that is neither NaN
nor a zero). -/
theorem zero_duration_calories_never_nonzero_number :
    ¬ ∃ (action lengthPool countPool : Int) (duration weight height : F64),
      duration.isZero = true
      ∧ (((RunningSpentCalories action weight duration).isNaN = false
          ∧ (RunningSpentCalories action weight duration).isZero = false)
        ∨ ((WalkingSpentCalories action duration weight height).isNaN = false
          ∧ (WalkingSpentCalories action duration weight height).isZero = false)
        ∨ ((SwimmingSpentCalories lengthPool countPool duration weight).isNaN = false
          ∧ (SwimmingSpentCalories lengthPool countPool duration weight).isZero = false)) := by
  rintro ⟨action, lengthPool, countPool, duration, weight, height, hd, H⟩
  obtain ⟨hr, hw, hs⟩ :=
    calories_zero_or_nan action lengthPool countPool duration weight height hd
  rcases H with ⟨h1, h2⟩ | ⟨h1, h2⟩ | ⟨h1, h2⟩
  · rcases hr with h | h
    · rw [h] at h2; exact Bool.noConfusion h2
    · rw [h] at h1; exact Bool.noConfusion h1
  · rcases hw with h | h
    · rw [h] at h2; exact Bool.noConfusion h2
    · rw [h] at h1; exact Bool.noConfusion h1
  · rcases hs with h | h
    · rw [h] at h2; exact Bool.noConfusion h2
    · rw [h] at h1; exact Bool.noConfusion h1

set_option maxRecDepth 100000 in
/-- C15 (amended): under the zero-duration policy the calorie calculators
never return a nonzero number. For all inputs with duration `== 0` both speed
calculators return 0 and each calorie calculator returns a zero or NaN. For
example, at 70 kg the swimming factor `(0 + 1.1) * 2 * 70` is nonzero (it is
154) but `SwimmingSpentCalories(25, 40, 0, 70)` is 0, because the formula
multiplies the factor by the duration; and
`SwimmingSpentCalories(25, 40, 0, 1e308)` is NaN. -/
theorem zero_duration_calories_zero_or_nan (action lengthPool countPool : Int)
    (duration weight height : F64) (hd : duration.isZero = true) :
    (meanSpeed action duration = zero
      ∧ swimmingMeanSpeed lengthPool countPool duration = zero)
    ∧ ((RunningSpentCalories action weight duration).isZero = true
      ∨ (RunningSpentCalories action weight duration).isNaN = true)
    ∧ ((WalkingSpentCalories action duration weight height).isZero = true
      ∨ (WalkingSpentCalories action duration weight height).isNaN = true)
    ∧ ((SwimmingSpentCalories lengthPool countPool duration weight).isZero = true
      ∨ (SwimmingSpentCalories lengthPool countPool duration weight).isNaN = true)
    ∧ mul (mul (add zero swimmingCaloriesMeanSpeedShift) swimmingCaloriesWeightMultiplier)
        (ofConst 70 1) = ofConst 154 1
    ∧ SwimmingSpentCalories 25 40 zero (ofConst 70 1) = zero
    ∧ SwimmingSpentCalories 25 40 zero (ofConst (10 ^ 154 * 10 ^ 154) 1) = F64.nan := by
  obtain ⟨hr, hw, hs⟩ :=
    calories_zero_or_nan action lengthPool countPool duration weight height hd
  refine ⟨⟨meanSpeed_of_isZero _ _ hd, swimmingMeanSpeed_of_isZero _ _ _ hd⟩,
    ?_, ?_, ?_, by decide, by decide, by decide⟩
  · exact hr.imp id (isNaN_iff _).2
  · exact hw.imp id (isNaN_iff _).2
  · exact hs.imp id (isNaN_iff _).2

set_option maxRecDepth 100000 in
/-- Witness of `zero_duration_calories_zero_or_nan`: 1000 actions, a 25 m
pool crossed 40 times, 70 kg, 175 cm, duration 0. -/
theorem zero_duration_calories_zero_or_nan_witness :
    zero.isZero = true
    ∧ (meanSpeed 1000 zero = zero ∧ swimmingMeanSpeed 25 40 zero = zero)
    ∧ ((RunningSpentCalories 1000 (ofConst 70 1) zero).isZero = true
      ∨ (RunningSpentCalories 1000 (ofConst 70 1) zero).isNaN = true)
    ∧ ((WalkingSpentCalories 1000 zero (ofConst 70 1) (ofConst 175 1)).isZero = true
      ∨ (WalkingSpentCalories 1000 zero (ofConst 70 1) (ofConst 175 1)).isNaN = true)
    ∧ ((SwimmingSpentCalories 25 40 zero (ofConst 70 1)).isZero = true
      ∨ (SwimmingSpentCalories 25 40 zero (ofConst 70 1)).isNaN = true)
    ∧ mul (mul (add zero swimmingCaloriesMeanSpeedShift) swimmingCaloriesWeightMultiplier)
        (ofConst 70 1) = ofConst 154 1
    ∧ SwimmingSpentCalories 25 40 zero (ofConst 70 1) = zero
    ∧ SwimmingSpentCalories 25 40 zero (ofConst (10 ^ 154 * 10 ^ 154) 1) = F64.nan :=
  ⟨by decide,
    zero_duration_calories_zero_or_nan 1000 25 40 zero (ofConst 70 1) (ofConst 175 1)
      (by decide)⟩

end IEEE
end Ftracker

namespace Ftracker
namespace IEEE

end IEEE
end Ftracker

namespace Ftracker
namespace IEEE

end IEEE
end Ftracker

namespace Ftracker
namespace IEEE

/-- The text `Sprintf` produces for the report format: five labelled lines,
each closed by a line feed. -/
theorem Sprintf_report_text64 (t : String) (d x s c : F64) :
    Sprintf
      "Тип тренировки: %s\nДлительность: %.2f ч.\nДистанция: %.2f км.\nСкорость: %.2f км/ч\nСожгли калорий: %.2f\n"
      [Arg.str t, Arg.float d, Arg.float x, Arg.float s, Arg.float c]
    = "Тип тренировки: " ++ t ++ "\n"
      ++ "Длительность: " ++ formatFloat 2 d ++ " ч.\n"
      ++ "Дистанция: " ++ formatFloat 2 x ++ " км.\n"
      ++ "Скорость: " ++ formatFloat 2 s ++ " км/ч\n"
      ++ "Сожгли калорий: " ++ formatFloat 2 c ++ "\n" := by
  apply String.ext
  simp [Sprintf, sprintfAux, formatFloat]

/-- Every `%.2f` rendering of a finite value is a numeral with exactly two
digits after the decimal point. -/
theorem isTwoDecimals_formatFloat_fin (s : Bool) (m : Nat) (e : Int) :
    isTwoDecimals (formatFloat 2 (F64.fin s m e)) = true := by
  have hd : ∀ n, ∀ c ∈ Nat.toDigits 10 n, c.isDigit = true := fun n =>
    toDigitsCore_isDigit _ _ _ (by simp)
  have hm : ∀ k : Nat, (Nat.digitChar (k % 10)).isDigit = true := fun k =>
    digitChar_isDigit _ (Nat.mod_lt _ (by decide))
  have key : formatFloat 2 (F64.fin s m e) = String.mk ((if s then ['-'] else [])
      ++ (Nat.toDigits 10
          (divRoundEven (m * 10 ^ 2 * 2 ^ e.toNat) (2 ^ (-e).toNat) / 10 ^ 2)
        ++ ['.',
          Nat.digitChar
            (divRoundEven (m * 10 ^ 2 * 2 ^ e.toNat) (2 ^ (-e).toNat) % 10 ^ 2 / 10 % 10),
          Nat.digitChar
            (divRoundEven (m * 10 ^ 2 * 2 ^ e.toNat) (2 ^ (-e).toNat) % 10 ^ 2 % 10)])) := by
    cases s <;> simp [formatFloat, formatFloatChars, fracDigits]
  rw [key]
  exact isTwoDecimals_of_shape s _ _ _ (toDigits_ne_nil _) (hd _) (hm _) (hm _)

set_option maxRecDepth 100000 in
/-- C14, as stated, fails. The running report for 1000 steps in one hour at
70 kg carries the labels and units of the source, not those of the template
"Activity type:", "Duration: … h.", "Distance: … km.", "Speed: … km/h",
"Calories burned:"; and the walking report for the same input with height 0
shows the calories as `+Inf`, which has no digits after a decimal point. -/
theorem report_format_counterexample :
    ShowTrainingInfo 1000 "Бег" (ofConst 1 1) (ofConst 70 1) (ofConst 175 1) 25 40
      = "Тип тренировки: Бег\nДлительность: 1.00 ч.\nДистанция: 0.65 км.\nСкорость: 0.65 км/ч\nСожгли калорий: 87.96\n"
    ∧ ShowTrainingInfo 1000 "Бег" (ofConst 1 1) (ofConst 70 1) (ofConst 175 1) 25 40
      ≠ "Activity type: Бег\nDuration: 1.00 h.\nDistance: 0.65 km.\nSpeed: 0.65 km/h\nCalories burned: 87.96\n"
    ∧ ShowTrainingInfo 1000 "Бег" (ofConst 1 1) (ofConst 70 1) (ofConst 175 1) 25 40
      ≠ "Activity type: Running\nDuration: 1.00 h.\nDistance: 0.65 km.\nSpeed: 0.65 km/h\nCalories burned: 87.96\n"
    ∧ ShowTrainingInfo 1000 "Ходьба" (ofConst 1 1) (ofConst 70 1) zero 25 40
      = "Тип тренировки: Ходьба\nДлительность: 1.00 ч.\nДистанция: 0.65 км.\nСкорость: 0.65 км/ч\nСожгли калорий: +Inf\n"
    ∧ isTwoDecimals "+Inf" = false := by
  decide

/-- C14 (amended): for each of the three recognised training types and all
inputs, the string returned by `ShowTrainingInfo` is the fixed 5-line report
with the labels and units of the source: "Тип тренировки: <type>",
"Длительность: <duration> ч.", "Дистанция: <distance> км.",
"Скорость: <speed> км/ч", "Сожгли калорий: <calories>", in that order, each
closed by a line feed. Each numeric field is the `%.2f` rendering of its
value: exactly 2 digits after the decimal point for every finite value, and
`NaN`, `+Inf` or `-Inf` for a value that is not finite. -/
theorem ShowTrainingInfo_report_format64 (action : Int) (duration weight height : F64)
    (lengthPool countPool : Int) :
    ShowTrainingInfo action "Бег" duration weight height lengthPool countPool
      = "Тип тренировки: " ++ "Бег" ++ "\n"
        ++ "Длительность: " ++ formatFloat 2 duration ++ " ч.\n"
        ++ "Дистанция: " ++ formatFloat 2 (distance action) ++ " км.\n"
        ++ "Скорость: " ++ formatFloat 2 (meanSpeed action duration) ++ " км/ч\n"
        ++ "Сожгли калорий: "
        ++ formatFloat 2 (RunningSpentCalories action weight duration) ++ "\n"
    ∧ ShowTrainingInfo action "Ходьба" duration weight height lengthPool countPool
      = "Тип тренировки: " ++ "Ходьба" ++ "\n"
        ++ "Длительность: " ++ formatFloat 2 duration ++ " ч.\n"
        ++ "Дистанция: " ++ formatFloat 2 (distance action) ++ " км.\n"
        ++ "Скорость: " ++ formatFloat 2 (meanSpeed action duration) ++ " км/ч\n"
        ++ "Сожгли калорий: "
        ++ formatFloat 2 (WalkingSpentCalories action duration weight height) ++ "\n"
    ∧ ShowTrainingInfo action "Плавание" duration weight height lengthPool countPool
      = "Тип тренировки: " ++ "Плавание" ++ "\n"
        ++ "Длительность: " ++ formatFloat 2 duration ++ " ч.\n"
        ++ "Дистанция: " ++ formatFloat 2 (distance action) ++ " км.\n"
        ++ "Скорость: "
        ++ formatFloat 2 (swimmingMeanSpeed lengthPool countPool duration) ++ " км/ч\n"
        ++ "Сожгли калорий: "
        ++ formatFloat 2 (SwimmingSpentCalories lengthPool countPool duration weight)
        ++ "\n"
    ∧ (∀ (s : Bool) (m : Nat) (e : Int),
        isTwoDecimals (formatFloat 2 (F64.fin s m e)) = true)
    ∧ formatFloat 2 F64.nan = "NaN"
    ∧ formatFloat 2 (F64.inf false) = "+Inf"
    ∧ formatFloat 2 (F64.inf true) = "-Inf" := by
  have hw : ("Ходьба" = "Бег") = False := by decide
  have hs1 : ("Плавание" = "Бег") = False := by decide
  have hs2 : ("Плавание" = "Ходьба") = False := by decide
  refine ⟨?_, ?_, ?_, isTwoDecimals_formatFloat_fin, by decide, by decide, by decide⟩
  · simp only [ShowTrainingInfo, if_true]
    rw [Sprintf_report_text64]
  · simp only [ShowTrainingInfo, hw, if_true, if_false]
    rw [Sprintf_report_text64]
  · simp only [ShowTrainingInfo, hs1, hs2, if_true, if_false]
    rw [Sprintf_report_text64]

end IEEE
end Ftracker
